import Mathlib

/-!
Verification of the request normalizer / tool dispatcher of the knowledge-base
proxy Lambda (`src/agentcore/lambda/knowledge_base_proxy.py`).

The embedding models Python's dynamically typed values as they occur in this
handler: JSON scalars, lists, string-keyed dicts, and the datetime objects
that appear inside AWS SDK responses.  Python floats do not occur in any
claim-relevant position and are not modelled (JSON numbers are embedded as
integers).  Operations that can raise (`in` on a non-container, `.get` on a
non-dict, `min` across incomparable types, slicing, `json.dumps` of a
datetime, ...) return `Except String`, the error string standing for the
exception text `str(e)`.  Logging calls are side-effect free except where the
logged expression itself can raise; those raises are modelled.
-/

set_option maxHeartbeats 1000000

namespace KBProxy

/-- Date-time value as produced by `datetime.utcnow()` or found in boto3
responses. -/
structure PyDateTime where
  year : Nat
  month : Nat
  day : Nat
  hour : Nat
  minute : Nat
  second : Nat
  microsecond : Nat
deriving DecidableEq

/-- Python values reachable in this Lambda: JSON scalars, lists, string-keyed
dicts, and datetimes (from boto3 responses). -/
inductive PyVal where
  | none : PyVal
  | bool (b : Bool) : PyVal
  | int (n : Int) : PyVal
  | str (s : String) : PyVal
  | list (xs : List PyVal) : PyVal
  | dict (kvs : List (String × PyVal)) : PyVal
  | dt (d : PyDateTime) : PyVal

/-- A Python dict with string keys (JSON object), as a key-value list. -/
abbrev Dict := List (String × PyVal)

/-- Python truthiness: `bool(v)`. -/
def truthy : PyVal → Bool
  | .none => false
  | .bool b => b
  | .int n => n ≠ 0
  | .str s => s ≠ ""
  | .list xs => ¬ xs.isEmpty
  | .dict kvs => ¬ kvs.isEmpty
  | .dt _ => true

/-- Python `a or b`: `a` if truthy, else `b`. -/
def pyOr (a b : PyVal) : PyVal :=
  if truthy a then a else b

/-- Lookup of a key in a dict (first binding wins, as Python keys are unique). -/
def dlook : Dict → String → Option PyVal
  | [], _ => Option.none
  | (k, v) :: rest, key => if k = key then some v else dlook rest key

/-- Python `d.get(key, default)` on a dict value. -/
def dGetD (kvs : Dict) (key : String) (default : PyVal) : PyVal :=
  (dlook kvs key).getD default

/-- Python `key in d` for a dict. -/
def hasKey (kvs : Dict) (key : String) : Bool :=
  (dlook kvs key).isSome

/-- Python type name of a value, as it appears in exception texts. -/
def pyTypeName : PyVal → String
  | .none => "NoneType"
  | .bool _ => "bool"
  | .int _ => "int"
  | .str _ => "str"
  | .list _ => "list"
  | .dict _ => "dict"
  | .dt _ => "datetime.datetime"

/-- Python `v.get(key, default)`: dict lookup, `AttributeError` on any other
type. -/
def pyDictGet (v : PyVal) (key : String) (default : PyVal) : Except String PyVal :=
  match v with
  | .dict kvs => .ok (dGetD kvs key default)
  | other => .error ("'" ++ pyTypeName other ++ "' object has no attribute 'get'")

/-- Python `v[key]` with a string key: dict subscription (`KeyError` when the
key is missing), `TypeError` on any other type. -/
def pySubscript (v : PyVal) (key : String) : Except String PyVal :=
  match v with
  | .dict kvs =>
      match dlook kvs key with
      | some x => .ok x
      | Option.none => .error ("KeyError: " ++ key)
  | .str _ => .error "string indices must be integers"
  | .list _ => .error "list indices must be integers or slices, not str"
  | other => .error ("'" ++ pyTypeName other ++ "' object is not subscriptable")

/-- Characters stripped by Python's `str.strip()`. -/
def isPySpace (c : Char) : Bool :=
  c = ' ' || c = '\t' || c = '\n' || c = '\r' || c = Char.ofNat 11 || c = Char.ofNat 12

/-- Python `s.strip()`. -/
def pyStrip (s : String) : String :=
  String.mk (((s.toList.dropWhile isPySpace).reverse.dropWhile isPySpace).reverse)

/-- Python `v.strip()`: only strings have `.strip`. -/
def pyStripAttr (v : PyVal) : Except String String :=
  match v with
  | .str s => .ok (pyStrip s)
  | other => .error ("'" ++ pyTypeName other ++ "' object has no attribute 'strip'")

/-- The expression `params.get(key, '').strip()` used by both query handlers. -/
def pyGetStrip (params : PyVal) (key : String) : Except String String :=
  match pyDictGet params key (.str "") with
  | .error e => .error e
  | .ok v => pyStripAttr v

/-- Python `min(v, cap)` with an integer cap: numbers (and bools, which are
ints) compare; anything else raises `TypeError`. -/
def pyMinCap (v : PyVal) (cap : Int) : Except String PyVal :=
  match v with
  | .int n => .ok (.int (min n cap))
  | .bool b => if (if b then (1 : Int) else 0) ≤ cap then .ok (.bool b) else .ok (.int cap)
  | other =>
      .error ("'<' not supported between instances of 'int' and '" ++ pyTypeName other ++ "'")

/-- Substring occurrence test on character lists (used for Python's `in` on
strings). -/
def strHasSub (needle hay : List Char) : Bool :=
  (List.range (hay.length + 1)).any (fun i => needle.isPrefixOf (hay.drop i))

/-- Last element of Python's `s.split('___')`: non-overlapping left-to-right
splitting; the last piece is what follows the final (leftmost-scanned) match. -/
def pySplitLast3U : List Char → List Char
  | '_' :: '_' :: '_' :: rest => pySplitLast3U rest
  | c :: rest => if strHasSub ['_', '_', '_'] rest then pySplitLast3U rest else c :: rest
  | [] => []

/-- Last element of Python's `s.split('/')`: the suffix after the last slash. -/
def afterLastSlash : List Char → List Char
  | [] => []
  | c :: rest =>
      if rest.contains '/' then afterLastSlash rest
      else if c = '/' then rest
      else c :: rest

/-- Python `needle in v` for a string needle: substring test on strings,
member test on lists, key test on dicts, `TypeError` otherwise. -/
def pyContainsEx (needle : String) (v : PyVal) : Except String Bool :=
  match v with
  | .str s => .ok (strHasSub needle.toList s.toList)
  | .list xs =>
      .ok (xs.any (fun x => match x with | .str s => s = needle | _ => false))
  | .dict kvs => .ok (hasKey kvs needle)
  | other => .error ("argument of type '" ++ pyTypeName other ++ "' is not iterable")

/-- Python `v.split('___')[-1]`: only strings have `.split`. -/
def pySplitLast3UAttr (v : PyVal) : Except String PyVal :=
  match v with
  | .str s => .ok (.str (String.mk (pySplitLast3U s.toList)))
  | other => .error ("'" ++ pyTypeName other ++ "' object has no attribute 'split'")

/-- Python `v in handlers` for a dict with the given string keys: strings are
looked up, other hashable values are simply absent, unhashable values raise. -/
def pyKeyMember (v : PyVal) (keys : List String) : Except String Bool :=
  match v with
  | .str s => .ok (keys.contains s)
  | .list _ => .error "unhashable type: 'list'"
  | .dict _ => .error "unhashable type: 'dict'"
  | _ => .ok false

/-- Python iteration `for x in v`: lists yield elements, strings yield
one-character strings, dicts yield keys; scalars raise `TypeError`. -/
def pyIter (v : PyVal) : Except String (List PyVal) :=
  match v with
  | .list xs => .ok xs
  | .str s => .ok (s.toList.map (fun c => PyVal.str (String.mk [c])))
  | .dict kvs => .ok (kvs.map (fun kv => PyVal.str kv.1))
  | other => .error ("'" ++ pyTypeName other ++ "' object is not iterable")

/-- Python `round(v, 4)`: integers (and bools) are unchanged integers; other
types raise.  Floats do not occur in the embedding. -/
def pyRound4 (v : PyVal) : Except String PyVal :=
  match v with
  | .int n => .ok (.int n)
  | .bool b => .ok (.int (if b then 1 else 0))
  | other =>
      .error ("type " ++ pyTypeName other ++ " doesn't define __round__ method")

/-- Decimal digits of a natural number, most significant first. -/
def natChars (n : Nat) : List Char := Nat.toDigits 10 n

/-- Decimal rendering of an integer. -/
def intChars (n : Int) : List Char :=
  if n < 0 then '-' :: natChars n.natAbs else natChars n.natAbs

/-- Left-pad a digit string with zeros to the given width. -/
def padChars (width : Nat) (ds : List Char) : List Char :=
  List.replicate (width - ds.length) '0' ++ ds

/-- Two lowercase hex digits of a byte. -/
def hex2 (n : Nat) : List Char :=
  [Nat.digitChar (n / 16 % 16), Nat.digitChar (n % 16)]

/-- Python's `repr` escaping of one character inside a quoted string literal:
backslash, the active quote, newline/carriage-return/tab, and other control
characters (as `\xNN`). -/
def reprCharEsc (q c : Char) : List Char :=
  if c = '\\' then ['\\', '\\']
  else if c = q then ['\\', q]
  else if c = '\n' then ['\\', 'n']
  else if c = '\r' then ['\\', 'r']
  else if c = '\t' then ['\\', 't']
  else if c.toNat < 32 || c.toNat = 127 then '\\' :: 'x' :: hex2 c.toNat
  else [c]

/-- Python's `repr` of a string: single-quoted unless the string holds a
single quote and no double quote. -/
def strReprChars (s : String) : List Char :=
  if s.toList.contains (Char.ofNat 39) && ¬ s.toList.contains '"' then
    '"' :: (s.toList.flatMap (reprCharEsc '"')) ++ ['"']
  else
    Char.ofNat 39 :: (s.toList.flatMap (reprCharEsc (Char.ofNat 39))) ++ [Char.ofNat 39]

/-- Join character lists with `", "`. -/
def joinComma : List (List Char) → List Char
  | [] => []
  | [x] => x
  | x :: y :: rest => x ++ ',' :: ' ' :: joinComma (y :: rest)

/-- Python `datetime` components of a `repr`: year, month, day, hour, minute,
then second only when second or microsecond is nonzero, then microsecond only
when nonzero. -/
def dtReprArgs (d : PyDateTime) : List (List Char) :=
  [natChars d.year, natChars d.month, natChars d.day, natChars d.hour, natChars d.minute]
    ++ (if d.second ≠ 0 || d.microsecond ≠ 0 then [natChars d.second] else [])
    ++ (if d.microsecond ≠ 0 then [natChars d.microsecond] else [])

/-- Python `datetime.isoformat(sep)`: `YYYY-MM-DD<sep>HH:MM:SS`, with a
`.ffffff` microsecond part only when the microsecond is nonzero. -/
def isoChars (sep : Char) (d : PyDateTime) : List Char :=
  padChars 4 (natChars d.year) ++ '-' :: padChars 2 (natChars d.month)
    ++ '-' :: padChars 2 (natChars d.day) ++ sep :: padChars 2 (natChars d.hour)
    ++ ':' :: padChars 2 (natChars d.minute) ++ ':' :: padChars 2 (natChars d.second)
    ++ (if d.microsecond ≠ 0 then '.' :: padChars 6 (natChars d.microsecond) else [])

/-- Python `datetime.isoformat()` as a string (`'T'` separator). -/
def pyIsoformat (d : PyDateTime) : String :=
  String.mk (isoChars 'T' d)

mutual

/-- Python `str(v)` as a character list: scalars render directly, containers
render their elements with `repr`, datetimes with a space-separated
isoformat. -/
def strChars : PyVal → List Char
  | .none => ['N', 'o', 'n', 'e']
  | .bool true => ['T', 'r', 'u', 'e']
  | .bool false => ['F', 'a', 'l', 's', 'e']
  | .int n => intChars n
  | .str s => s.toList
  | .list xs => '[' :: reprListChars xs ++ [']']
  | .dict kvs => Char.ofNat 123 :: reprKVsChars kvs ++ [Char.ofNat 125]
  | .dt d => isoChars ' ' d

/-- Python `repr(v)` as a character list. -/
def reprChars : PyVal → List Char
  | .str s => strReprChars s
  | .dt d =>
      ('d' :: 'a' :: 't' :: 'e' :: 't' :: 'i' :: 'm' :: 'e' :: '.' :: []) ++
        ('d' :: 'a' :: 't' :: 'e' :: 't' :: 'i' :: 'm' :: 'e' :: '(' :: []) ++
        joinComma (dtReprArgs d) ++ [')']
  | .none => strChars .none
  | .bool b => strChars (.bool b)
  | .int n => strChars (.int n)
  | .list xs => '[' :: reprListChars xs ++ [']']
  | .dict kvs => Char.ofNat 123 :: reprKVsChars kvs ++ [Char.ofNat 125]

/-- Comma-joined `repr`s of list elements. -/
def reprListChars : List PyVal → List Char
  | [] => []
  | [x] => reprChars x
  | x :: y :: rest => reprChars x ++ ',' :: ' ' :: reprListChars (y :: rest)

/-- Comma-joined `'key': repr(value)` pairs of a dict. -/
def reprKVsChars : List (String × PyVal) → List Char
  | [] => []
  | [(k, v)] => strReprChars k ++ ':' :: ' ' :: reprChars v
  | (k, v) :: kv :: rest =>
      strReprChars k ++ ':' :: ' ' :: reprChars v ++ ',' :: ' ' :: reprKVsChars (kv :: rest)

end

/-- Python `str(v)` as a string. -/
def pyStr (v : PyVal) : String := String.mk (strChars v)

mutual

/-- Whether `json.dumps` accepts the value: everything except datetimes
(recursively). -/
def jsonSafe : PyVal → Bool
  | .dt _ => false
  | .list xs => jsonSafeList xs
  | .dict kvs => jsonSafeKVs kvs
  | _ => true

/-- jsonSafe over a list of values. -/
def jsonSafeList : List PyVal → Bool
  | [] => true
  | x :: rest => jsonSafe x && jsonSafeList rest

/-- jsonSafe over dict entries. -/
def jsonSafeKVs : List (String × PyVal) → Bool
  | [] => true
  | (_, v) :: rest => jsonSafe v && jsonSafeKVs rest

end

/-- The `TypeError` text `json.dumps` raises on a datetime. -/
def dumpsErr : String := "Object of type datetime is not JSON serializable"

/-- Configuration constants, at their hardcoded environment fallbacks
(`KNOWLEDGE_BASE_ID`, `MODEL_ARN` with the default `us-west-2` region,
`DEFAULT_MAX_RESULTS`, `DEFAULT_MAX_TOKENS`). -/
def KNOWLEDGE_BASE_ID : String := "OYBA7PFNNQ"

/-- Default model ARN (environment fallback). -/
def MODEL_ARN : String :=
  "arn:aws:bedrock:us-west-2::foundation-model/anthropic.claude-3-sonnet-20240229-v1:0"

/-- Default number of retrieval results (environment fallback). -/
def DEFAULT_MAX_RESULTS : Int := 5

/-- Default token bound for generation (environment fallback). -/
def DEFAULT_MAX_TOKENS : Int := 2048

/-- The Lambda response envelope.  In the source, `body` is the
`json.dumps`-serialized string of the decoded mapping modelled here; the
builders below check serializability (`json.dumps` raises on a datetime), so
keeping the decoded mapping loses nothing claims depend on. -/
structure Response where
  statusCode : Int
  body : Dict
  headers : List (String × String)

/-- The fixed headers of every envelope. -/
def stdHeaders : List (String × String) := [("Content-Type", "application/json")]

/-- Embedding of `success_response` (lines 436-453): statusCode 200 and a body
`{success: True, data: ..., timestamp: utcnow().isoformat() + 'Z'}`.  The
`json.dumps` inside it raises when `data` holds a datetime; that raise is the
`.error` branch. -/
def success_response (data : PyVal) (now : PyDateTime) : Except String Response :=
  if jsonSafe data then
    .ok { statusCode := 200
          body := [("success", .bool true), ("data", data),
                   ("timestamp", .str (pyIsoformat now ++ "Z"))]
          headers := stdHeaders }
  else .error dumpsErr

/-- Embedding of `error_response` (lines 456-475): statusCode defaulting to
400 and a body `{success: False, error: message, timestamp: ...}`.  The
message is a string, so serialization never raises. -/
def error_response (message : String) (now : PyDateTime) (status_code : Int := 400) :
    Response :=
  { statusCode := status_code
    body := [("success", .bool false), ("error", .str message),
             ("timestamp", .str (pyIsoformat now ++ "Z"))]
    headers := stdHeaders }

/-- Embedding of `extract_location` (lines 421-433): probe the five provider
tags in order (`in` and subscription can raise on non-dict shapes, exactly as
in Python), else fall back to `str(location)`. -/
def extract_location (location : PyVal) : Except String PyVal :=
  match pyContainsEx "s3Location" location with
  | .error e => .error e
  | .ok true =>
      match pySubscript location "s3Location" with
      | .error e => .error e
      | .ok inner => pyDictGet inner "uri" (.str "")
  | .ok false =>
  match pyContainsEx "webLocation" location with
  | .error e => .error e
  | .ok true =>
      match pySubscript location "webLocation" with
      | .error e => .error e
      | .ok inner => pyDictGet inner "url" (.str "")
  | .ok false =>
  match pyContainsEx "confluenceLocation" location with
  | .error e => .error e
  | .ok true =>
      match pySubscript location "confluenceLocation" with
      | .error e => .error e
      | .ok inner => pyDictGet inner "url" (.str "")
  | .ok false =>
  match pyContainsEx "salesforceLocation" location with
  | .error e => .error e
  | .ok true =>
      match pySubscript location "salesforceLocation" with
      | .error e => .error e
      | .ok inner => pyDictGet inner "url" (.str "")
  | .ok false =>
  match pyContainsEx "sharePointLocation" location with
  | .error e => .error e
  | .ok true =>
      match pySubscript location "sharePointLocation" with
      | .error e => .error e
      | .ok inner => pyDictGet inner "url" (.str "")
  | .ok false => .ok (.str (pyStr location))

/-- The `retrieve` request a `query_knowledge_base` call sends (lines
166-181): knowledge base id, query text, `numberOfResults`, and the optional
metadata filter (attached only when truthy). -/
structure RetrieveRequest where
  knowledgeBaseId : String
  text : String
  numberOfResults : PyVal
  filter : Option PyVal

/-- Outcome of the external `bedrock_agent_runtime.retrieve` call: a raw
response mapping, or one of the exception classes the handler catches. -/
inductive RetrieveOutcome where
  | ok (response : PyVal) : RetrieveOutcome
  | validationExc (msg : String) : RetrieveOutcome
  | notFoundExc (msg : String) : RetrieveOutcome
  | raised (msg : String) : RetrieveOutcome

/-- Line 158: `min(params.get('max_results', DEFAULT_MAX_RESULTS), 25)`. -/
def effectiveMaxResults (params : PyVal) : Except String PyVal :=
  match pyDictGet params "max_results" (.int DEFAULT_MAX_RESULTS) with
  | .error e => .error e
  | .ok v => pyMinCap v 25

/-- Line 259: `min(params.get('max_tokens', DEFAULT_MAX_TOKENS), 4096)`. -/
def effectiveMaxTokens (params : PyVal) : Except String PyVal :=
  match pyDictGet params "max_tokens" (.int DEFAULT_MAX_TOKENS) with
  | .error e => .error e
  | .ok v => pyMinCap v 4096

/-- Python slicing `v[:1000]` as used by the retrieval evaluation log. -/
def pySlice1000 (v : PyVal) : Except String PyVal :=
  match v with
  | .str s => .ok (.str (String.mk (s.toList.take 1000)))
  | .list xs => .ok (.list (xs.take 1000))
  | .dict _ => .error "unhashable type: 'slice'"
  | other => .error ("'" ++ pyTypeName other ++ "' object is not subscriptable")

/-- Lines 188-193: one retrieved item reshaped to
`{content, score, location, metadata}`. -/
def reshapeItem (item : PyVal) : Except String PyVal :=
  match pyDictGet item "content" (.dict []) with
  | .error e => .error e
  | .ok contentV =>
  match pyDictGet contentV "text" (.str "") with
  | .error e => .error e
  | .ok text =>
  match pyDictGet item "score" (.int 0) with
  | .error e => .error e
  | .ok scoreV =>
  match pyRound4 scoreV with
  | .error e => .error e
  | .ok score =>
  match pyDictGet item "location" (.dict []) with
  | .error e => .error e
  | .ok locV =>
  match extract_location locV with
  | .error e => .error e
  | .ok loc =>
  match pyDictGet item "metadata" (.dict []) with
  | .error e => .error e
  | .ok md =>
      .ok (.dict [("content", text), ("score", score), ("location", loc), ("metadata", md)])

/-- Reshape every retrieved item in order. -/
def reshapeItems : List PyVal → Except String (List PyVal)
  | [] => .ok []
  | item :: rest =>
      match reshapeItem item with
      | .error e => .error e
      | .ok r =>
          match reshapeItems rest with
          | .error e => .error e
          | .ok rs => .ok (r :: rs)

/-- Lines 210-211: the evaluation-log document entries
`{content: r['content'][:1000], score, source: r['location']}` for the first
five results (the slice raises on non-sliceable content). -/
def evalDocs : List PyVal → Except String (List PyVal)
  | [] => .ok []
  | r :: rest =>
      match pySubscript r "content" with
      | .error e => .error e
      | .ok c =>
      match pySlice1000 c with
      | .error e => .error e
      | .ok sliced =>
      match pySubscript r "score" with
      | .error e => .error e
      | .ok sc =>
      match pySubscript r "location" with
      | .error e => .error e
      | .ok loc =>
      match evalDocs rest with
      | .error e => .error e
      | .ok ds => .ok (.dict [("content", sliced), ("score", sc), ("source", loc)] :: ds)

/-- Lines 200-215: building and `json.dumps`-serializing the `EVAL_DATA` log
record.  Only its ability to raise matters: the content slices of the first
five results, and serializability of the logged filter and documents (the
other logged fields are strings and integers).  The optional user context is
taken from the incoming JSON event and is always serializable; it is not
modelled. -/
def qkbEvalCheck (results : List PyVal) (filterRaw : PyVal) : Except String Unit :=
  match evalDocs (results.take 5) with
  | .error e => .error e
  | .ok docs =>
      if jsonSafe filterRaw && jsonSafeList docs then .ok () else .error dumpsErr

/-- Lines 217-222: the success payload of `query_knowledge_base`. -/
def qkbData (results : List PyVal) (query : String) : PyVal :=
  .dict [("results", .list results), ("count", .int results.length),
         ("query", .str query), ("knowledge_base_id", .str KNOWLEDGE_BASE_ID)]

/-- Lines 166-176: the request built from the validated arguments. -/
def qkbRequest (query : String) (maxResults : PyVal) (filterRaw : PyVal) : RetrieveRequest :=
  { knowledgeBaseId := KNOWLEDGE_BASE_ID
    text := query
    numberOfResults := maxResults
    filter := if truthy filterRaw then some filterRaw else Option.none }

/-- Lines 186-222: the body of the `try` block after the retrieve call
succeeded; any raise here is caught by the handler's generic `except`. -/
def qkbSuccessBody (resp : PyVal) (query : String) (filterRaw : PyVal) (now : PyDateTime) :
    Except String Response :=
  match pyDictGet resp "retrievalResults" (.list []) with
  | .error e => .error e
  | .ok rrV =>
  match pyIter rrV with
  | .error e => .error e
  | .ok items =>
  match reshapeItems items with
  | .error e => .error e
  | .ok results =>
  match qkbEvalCheck results filterRaw with
  | .error e => .error e
  | .ok _ => success_response (qkbData results query) now

/-- Lines 183-230: mapping the outcome of the external retrieve call to a
response envelope, with the three `except` clauses of the source. -/
def qkbHandleOutcome (query : String) (filterRaw : PyVal) (outcome : RetrieveOutcome)
    (now : PyDateTime) : Response :=
  match outcome with
  | .ok resp =>
      match qkbSuccessBody resp query filterRaw now with
      | .ok r => r
      | .error e => error_response ("Failed to retrieve from knowledge base: " ++ e) now
  | .validationExc m => error_response ("Invalid request: " ++ m) now
  | .notFoundExc m => error_response ("Knowledge base not found: " ++ m) now
  | .raised m => error_response ("Failed to retrieve from knowledge base: " ++ m) now

/-- Embedding of `query_knowledge_base` (lines 138-230).  `svc` stands for
the external `bedrock_agent_runtime.retrieve` call; the `.error` result is an
exception escaping the handler (possible only from lines 157-159, which run
before its `try`).  The `user_context` parameter is logging-only and not
modelled. -/
def query_knowledge_base (params : PyVal) (svc : RetrieveRequest → RetrieveOutcome)
    (now : PyDateTime) : Except String Response :=
  match pyGetStrip params "query" with
  | .error e => .error e
  | .ok query =>
  match effectiveMaxResults params with
  | .error e => .error e
  | .ok maxResults =>
  match pyDictGet params "filter" .none with
  | .error e => .error e
  | .ok filterRaw =>
  if query = "" then
    .ok (error_response "The 'query' parameter is required and cannot be empty" now)
  else
    .ok (qkbHandleOutcome query filterRaw (svc (qkbRequest query maxResults filterRaw)) now)

/-- The `retrieve_and_generate` request (lines 268-286).  `temperature` is
the raw parameter value when supplied, `Option.none` standing for the Python
default `0.7` (a float, outside the value model); `topP` is the constant
`0.9` and is not recorded. -/
structure RAGRequest where
  text : String
  knowledgeBaseId : String
  modelArn : PyVal
  maxTokens : PyVal
  temperature : Option PyVal

/-- Outcome of the external `retrieve_and_generate` call, with the exception
classes the handler catches. -/
inductive RAGOutcome where
  | ok (response : PyVal) : RAGOutcome
  | validationExc (msg : String) : RAGOutcome
  | throttlingExc (msg : String) : RAGOutcome
  | raised (msg : String) : RAGOutcome

/-- Line 296: `content_text[:500] + ('...' if len(content_text) > 500 else '')`. -/
def pyTruncate500 (v : PyVal) : Except String PyVal :=
  match v with
  | .str s =>
      .ok (.str (if 500 < s.length then String.mk (s.toList.take 500) ++ "..." else s))
  | .list _ => .error "can only concatenate list (not \"str\") to list"
  | .dict _ => .error "unhashable type: 'slice'"
  | other => .error ("'" ++ pyTypeName other ++ "' object is not subscriptable")

/-- Line 304: `model_arn.split('/')[-1] if '/' in model_arn else model_arn`. -/
def pyModelName (modelArn : PyVal) : Except String PyVal :=
  match modelArn with
  | .str s =>
      .ok (.str (if s.toList.contains '/' then String.mk (afterLastSlash s.toList) else s))
  | .list xs =>
      if xs.any (fun x => match x with | .str s => s = "/" | _ => false) then
        .error "'list' object has no attribute 'split'"
      else .ok (.list xs)
  | .dict kvs =>
      if hasKey kvs "/" then .error "'dict' object has no attribute 'split'"
      else .ok (.dict kvs)
  | other => .error ("argument of type '" ++ pyTypeName other ++ "' is not iterable")

/-- Lines 293-299: one retrieved reference reshaped to a citation entry. -/
def buildRef (ref : PyVal) : Except String PyVal :=
  match pyDictGet ref "content" (.dict []) with
  | .error e => .error e
  | .ok contentV =>
  match pyDictGet contentV "text" (.str "") with
  | .error e => .error e
  | .ok ctext =>
  match pyTruncate500 ctext with
  | .error e => .error e
  | .ok trunc =>
  match pyDictGet ref "location" (.dict []) with
  | .error e => .error e
  | .ok locV =>
  match extract_location locV with
  | .error e => .error e
  | .ok loc =>
  match pyDictGet ref "metadata" (.dict []) with
  | .error e => .error e
  | .ok md => .ok (.dict [("content", trunc), ("location", loc), ("metadata", md)])

/-- Inner loop over `citation.get('retrievedReferences', [])`. -/
def buildRefs : List PyVal → Except String (List PyVal)
  | [] => .ok []
  | ref :: rest =>
      match buildRef ref with
      | .error e => .error e
      | .ok r =>
          match buildRefs rest with
          | .error e => .error e
          | .ok rs => .ok (r :: rs)

/-- Outer loop over `response.get('citations', [])` (lines 291-299),
flattening all references. -/
def buildCitations : List PyVal → Except String (List PyVal)
  | [] => .ok []
  | citation :: rest =>
      match pyDictGet citation "retrievedReferences" (.list []) with
      | .error e => .error e
      | .ok refsV =>
      match pyIter refsV with
      | .error e => .error e
      | .ok refs =>
      match buildRefs refs with
      | .error e => .error e
      | .ok entries =>
      match buildCitations rest with
      | .error e => .error e
      | .ok more => .ok (entries ++ more)

/-- Lines 288-335: the `try` body after a successful generate call.  The
`EVAL_DATA` serialization (lines 312-327) can only raise on values that also
appear in the success payload, with the identical error message, so the
payload serialization check inside `success_response` covers it. -/
def ragSuccessBody (resp : PyVal) (query : String) (modelArn : PyVal) (now : PyDateTime) :
    Except String Response :=
  match pyDictGet resp "output" (.dict []) with
  | .error e => .error e
  | .ok outputV =>
  match pyDictGet outputV "text" (.str "") with
  | .error e => .error e
  | .ok outputText =>
  match pyDictGet resp "citations" (.list []) with
  | .error e => .error e
  | .ok citsV =>
  match pyIter citsV with
  | .error e => .error e
  | .ok cits =>
  match buildCitations cits with
  | .error e => .error e
  | .ok citations =>
  match pyModelName modelArn with
  | .error e => .error e
  | .ok modelName =>
      success_response
        (.dict [("answer", outputText), ("citations", .list citations),
                ("citation_count", .int citations.length), ("query", .str query),
                ("model", modelName)]) now

/-- Lines 267-343: outcome mapping with the handler's `except` clauses; the
throttling clause produces the fixed 429 busy message. -/
def ragHandleOutcome (query : String) (modelArn : PyVal) (outcome : RAGOutcome)
    (now : PyDateTime) : Response :=
  match outcome with
  | .ok resp =>
      match ragSuccessBody resp query modelArn now with
      | .ok r => r
      | .error e => error_response ("Failed to generate response: " ++ e) now
  | .validationExc m => error_response ("Invalid request: " ++ m) now
  | .throttlingExc _ => error_response "Service is busy, please try again in a moment" now 429
  | .raised m => error_response ("Failed to generate response: " ++ m) now

/-- Python `d.get(key)` keeping absence distinct from an explicit `None`. -/
def pyDictGetOpt (v : PyVal) (key : String) : Except String (Option PyVal) :=
  match v with
  | .dict kvs => .ok (dlook kvs key)
  | other => .error ("'" ++ pyTypeName other ++ "' object has no attribute 'get'")

/-- Embedding of `retrieve_and_generate` (lines 233-343).  `svc` stands for
the external `bedrock_agent_runtime.retrieve_and_generate` call; `.error` is
an exception escaping from the pre-`try` lines 257-260.  The `user_context`
parameter is logging-only and not modelled. -/
def retrieve_and_generate (params : PyVal) (svc : RAGRequest → RAGOutcome)
    (now : PyDateTime) : Except String Response :=
  match pyGetStrip params "query" with
  | .error e => .error e
  | .ok query =>
  match pyDictGet params "model_arn" (.str MODEL_ARN) with
  | .error e => .error e
  | .ok modelArn =>
  match effectiveMaxTokens params with
  | .error e => .error e
  | .ok maxTokens =>
  match pyDictGetOpt params "temperature" with
  | .error e => .error e
  | .ok temperature =>
  if query = "" then
    .ok (error_response "The 'query' parameter is required and cannot be empty" now)
  else
    .ok (ragHandleOutcome query modelArn
          (svc { text := query, knowledgeBaseId := KNOWLEDGE_BASE_ID, modelArn := modelArn,
                 maxTokens := maxTokens, temperature := temperature }) now)

/-- Outcome of the external `list_data_sources` call (it takes only the fixed
knowledge-base id, so no request record is needed). -/
inductive ListOutcome where
  | ok (response : PyVal) : ListOutcome
  | raised (msg : String) : ListOutcome

/-- Python `v.isoformat()`: only datetimes have it. -/
def pyIsoformatAttr (v : PyVal) : Except String PyVal :=
  match v with
  | .dt d => .ok (.str (pyIsoformat d))
  | other => .error ("'" ++ pyTypeName other ++ "' object has no attribute 'isoformat'")

/-- Lines 363-372: one data-source summary reshaped. -/
def lsItem (source : PyVal) : Except String PyVal :=
  match pyDictGet source "updatedAt" .none with
  | .error e => .error e
  | .ok updatedAt =>
  match pyDictGet source "dataSourceId" .none with
  | .error e => .error e
  | .ok idV =>
  match pyDictGet source "name" .none with
  | .error e => .error e
  | .ok nameV =>
  match pyDictGet source "status" .none with
  | .error e => .error e
  | .ok statusV =>
  match (if truthy updatedAt then pyIsoformatAttr updatedAt else .ok .none) with
  | .error e => .error e
  | .ok updatedIso =>
  match pyDictGet source "description" (.str "") with
  | .error e => .error e
  | .ok descV =>
      .ok (.dict [("id", idV), ("name", nameV), ("status", statusV),
                  ("updated_at", updatedIso), ("description", descV)])

/-- Loop over `response.get('dataSourceSummaries', [])`. -/
def lsItems : List PyVal → Except String (List PyVal)
  | [] => .ok []
  | s :: rest =>
      match lsItem s with
      | .error e => .error e
      | .ok r =>
          match lsItems rest with
          | .error e => .error e
          | .ok rs => .ok (r :: rs)

/-- Lines 358-378: the `try` body of `list_sources`. -/
def lsBody (resp : PyVal) (now : PyDateTime) : Except String Response :=
  match pyDictGet resp "dataSourceSummaries" (.list []) with
  | .error e => .error e
  | .ok summariesV =>
  match pyIter summariesV with
  | .error e => .error e
  | .ok items =>
  match lsItems items with
  | .error e => .error e
  | .ok sources =>
      success_response
        (.dict [("knowledge_base_id", .str KNOWLEDGE_BASE_ID),
                ("sources", .list sources), ("count", .int sources.length)]) now

/-- Embedding of `list_sources` (lines 346-382): the parameters are unused;
every raise inside the `try` becomes the generic failure message. -/
def list_sources (_params : PyVal) (svc : ListOutcome) (now : PyDateTime) :
    Except String Response :=
  match svc with
  | .ok resp =>
      match lsBody resp now with
      | .ok r => .ok r
      | .error e => .ok (error_response ("Failed to list sources: " ++ e) now)
  | .raised m => .ok (error_response ("Failed to list sources: " ++ m) now)

/-- Outcome of the external `get_knowledge_base` call. -/
inductive KBInfoOutcome where
  | ok (response : PyVal) : KBInfoOutcome
  | raised (msg : String) : KBInfoOutcome

/-- Python `v.split('/')[-1]`: only strings have `.split`. -/
def pySplitSlashAttr (v : PyVal) : Except String PyVal :=
  match v with
  | .str s => .ok (.str (String.mk (afterLastSlash s.toList)))
  | other => .error ("'" ++ pyTypeName other ++ "' object has no attribute 'split'")

/-- Lines 397-414: the `try` body of `get_knowledge_base_info`. -/
def kbInfoBody (resp : PyVal) (now : PyDateTime) : Except String Response :=
  match pyDictGet resp "knowledgeBase" (.dict []) with
  | .error e => .error e
  | .ok kb =>
  match pyDictGet kb "knowledgeBaseId" .none with
  | .error e => .error e
  | .ok idV =>
  match pyDictGet kb "name" .none with
  | .error e => .error e
  | .ok nameV =>
  match pyDictGet kb "description" .none with
  | .error e => .error e
  | .ok descV =>
  match pyDictGet kb "status" .none with
  | .error e => .error e
  | .ok statusV =>
  match pyDictGet kb "createdAt" .none with
  | .error e => .error e
  | .ok createdV =>
  match (if truthy createdV then pyIsoformatAttr createdV else .ok .none) with
  | .error e => .error e
  | .ok createdIso =>
  match pyDictGet kb "updatedAt" .none with
  | .error e => .error e
  | .ok updatedV =>
  match (if truthy updatedV then pyIsoformatAttr updatedV else .ok .none) with
  | .error e => .error e
  | .ok updatedIso =>
  match pyDictGet kb "storageConfiguration" (.dict []) with
  | .error e => .error e
  | .ok storageV =>
  match pyDictGet storageV "type" .none with
  | .error e => .error e
  | .ok storageType =>
  match pyDictGet kb "knowledgeBaseConfiguration" (.dict []) with
  | .error e => .error e
  | .ok kbcV =>
  match pyDictGet kbcV "vectorKnowledgeBaseConfiguration" (.dict []) with
  | .error e => .error e
  | .ok vkbcV =>
  match pyDictGet vkbcV "embeddingModelArn" (.str "") with
  | .error e => .error e
  | .ok emArnV =>
  match pySplitSlashAttr emArnV with
  | .error e => .error e
  | .ok embeddingModel =>
      success_response
        (.dict [("id", idV), ("name", nameV), ("description", descV),
                ("status", statusV), ("created_at", createdIso),
                ("updated_at", updatedIso), ("storage_type", storageType),
                ("embedding_model", embeddingModel)]) now

/-- Embedding of `get_knowledge_base_info` (lines 385-418). -/
def get_knowledge_base_info (_params : PyVal) (svc : KBInfoOutcome) (now : PyDateTime) :
    Except String Response :=
  match svc with
  | .ok resp =>
      match kbInfoBody resp now with
      | .ok r => .ok r
      | .error e => .ok (error_response ("Failed to get knowledge base info: " ++ e) now)
  | .raised m => .ok (error_response ("Failed to get knowledge base info: " ++ m) now)

/-- Lines 79-91 of `handler`: the name/argument extraction chains
(`tool_name`/`name`/`toolName` resolved with Python `or`, likewise the four
argument keys) and the `action`/`parameters` fallback.  The `user_context`
and `session_id` extractions (lines 83-86) are plain `get`s whose values are
only logged or passed through; they are not modelled. -/
def step13 (event : Dict) : PyVal × PyVal :=
  let n0 := pyOr (pyOr (dGetD event "tool_name" .none) (dGetD event "name" .none))
    (dGetD event "toolName" (.str ""))
  let i0 := pyOr (pyOr (pyOr (dGetD event "tool_input" .none) (dGetD event "input" .none))
    (dGetD event "arguments" .none)) (dGetD event "toolInput" (.dict []))
  if ¬ truthy n0 && hasKey event "action" then
    (dGetD event "action" .none, dGetD event "parameters" (.dict []))
  else (n0, i0)

/-- Lines 94-95: `if tool_name and '___' in tool_name: tool_name =
tool_name.split('___')[-1]` (the `in` and `.split` can raise on non-string
truthy values). -/
def step4 (n : PyVal) : Except String PyVal :=
  if truthy n then
    match pyContainsEx "___" n with
    | .error e => .error e
    | .ok true => pySplitLast3UAttr n
    | .ok false => .ok n
  else .ok n

/-- Lines 99-113: shape inference when no tool name was resolved: a `query`
key selects one of the two knowledge-base tools by the presence of
`max_tokens` or `temperature`; otherwise, with none of the four name keys
present, `list_sources`; in both cases the whole event becomes the
arguments. -/
def step5 (event : Dict) (n i : PyVal) : PyVal × PyVal :=
  if ¬ truthy n then
    if hasKey event "query" then
      (.str (if hasKey event "max_tokens" || hasKey event "temperature" then
              "retrieve_and_generate" else "query_knowledge_base"),
       .dict event)
    else if ¬ (hasKey event "tool_name" || hasKey event "name" || hasKey event "action"
               || hasKey event "toolName") then
      (.str "list_sources", .dict event)
    else (n, i)
  else (n, i)

/-- The full normalization of lines 79-113: resolved (tool name, arguments),
or the exception it raises. -/
def normalize (event : Dict) : Except String (PyVal × PyVal) :=
  match step4 (step13 event).1 with
  | .error e => .error e
  | .ok n2 => .ok (step5 event n2 (step13 event).2)

/-- Python's rendering of `list(handlers.keys())` (line 130), kept as a
concatenation of its pieces; `availListChars_eq` below checks it against the
flat text. -/
def availListChars : List Char :=
  "['".toList ++ "query_knowledge_base".toList ++ "', '".toList
    ++ "retrieve_and_generate".toList ++ "', '".toList ++ "list_sources".toList
    ++ "', '".toList ++ "get_knowledge_base_info".toList ++ "']".toList

/-- The message of line 130: the unknown tool name rendered by the f-string
(`str(tool_name)`) followed by the rendered handler-key list. -/
def unknownToolMsgChars (name : PyVal) : List Char :=
  "Unknown tool: '".toList ++ strChars name ++ "'. Available tools: ".toList
    ++ availListChars

/-- The unknown-tool message as a string. -/
def unknownToolMsg (name : PyVal) : String := String.mk (unknownToolMsgChars name)

/-- Lines 118-131: look the resolved name up in the fixed handler table and
invoke the tool handler, or build the unknown-tool client error.  A
non-string name is never a key; an unhashable one makes the `in` test raise. -/
def dispatch (name inp : PyVal) (svcQ : RetrieveRequest → RetrieveOutcome)
    (svcR : RAGRequest → RAGOutcome) (svcL : ListOutcome) (svcK : KBInfoOutcome)
    (now : PyDateTime) : Except String Response :=
  match name with
  | .str s =>
      if s = "query_knowledge_base" then query_knowledge_base inp svcQ now
      else if s = "retrieve_and_generate" then retrieve_and_generate inp svcR now
      else if s = "list_sources" then list_sources inp svcL now
      else if s = "get_knowledge_base_info" then get_knowledge_base_info inp svcK now
      else .ok (error_response (unknownToolMsg name) now)
  | .list _ => .error "unhashable type: 'list'"
  | .dict _ => .error "unhashable type: 'dict'"
  | other => .ok (error_response (unknownToolMsg other) now)

/-- The body of `handler`'s `try` block (lines 72-131): normalize, then
dispatch.  The dump of `tool_input` at line 115 cannot raise when the event
is serializable, since the arguments are drawn from the event (or are fresh
literals). -/
def handlerSteps (event : Dict) (svcQ : RetrieveRequest → RetrieveOutcome)
    (svcR : RAGRequest → RAGOutcome) (svcL : ListOutcome) (svcK : KBInfoOutcome)
    (now : PyDateTime) : Except String Response :=
  match normalize event with
  | .error e => .error e
  | .ok (name, inp) => dispatch name inp svcQ svcR svcL svcK now

/-- Embedding of `handler` (lines 46-135).  Line 70 serializes the raw event
for logging before the `try` block, so a non-serializable event raises out of
the Lambda (the `.error` case); anything raised inside the `try` is caught
once and becomes a 500 envelope with the exception text. -/
def handler (event : Dict) (svcQ : RetrieveRequest → RetrieveOutcome)
    (svcR : RAGRequest → RAGOutcome) (svcL : ListOutcome) (svcK : KBInfoOutcome)
    (now : PyDateTime) : Except String Response :=
  if jsonSafe (.dict event) then
    .ok (match handlerSteps event svcQ svcR svcL svcK now with
         | .ok r => r
         | .error e => error_response e now 500)
  else .error dumpsErr

/-- Modelled from the claim's words (C2): the substring of `s` that follows
the last occurrence (at any index, occurrences may overlap) of the delimiter
`___`; `s` itself when there is none. -/
def substringAfterLastOccurrence (s : String) : String :=
  match ((List.range s.toList.length).filter
          (fun i => ['_', '_', '_'].isPrefixOf (s.toList.drop i))).getLast? with
  | some i => String.mk (s.toList.drop (i + 3))
  | Option.none => s

/-- Fixed timestamp used by the concrete test instances below. -/
def testNow : PyDateTime := ⟨2024, 1, 2, 3, 4, 5, 0⟩

/-- A retrieve service that always raises (for instances whose outcome is
irrelevant). -/
def svcQraise : RetrieveRequest → RetrieveOutcome := fun _ => .raised "boom"

/-- A retrieve-and-generate service that always raises. -/
def svcRraise : RAGRequest → RAGOutcome := fun _ => .raised "boom"

/-- The rendered handler-key list is exactly Python's. -/
theorem availListChars_eq :
    String.mk availListChars =
      "['query_knowledge_base', 'retrieve_and_generate', 'list_sources', 'get_knowledge_base_info']" := by
  decide

/-- The string rendering of a dict is never empty (it is brace-delimited). -/
theorem pyStr_dict_ne_empty (kvs : Dict) : pyStr (.dict kvs) ≠ "" := by
  intro h
  have hdata := congrArg String.data h
  simp [pyStr, strChars, String.mk] at hdata

/-- C1: for every invocation event on which steps 1-4 of normalization yield
no tool name (the name value after the delimiter-stripping step is falsy), a
`query` key resolves the tool to `retrieve_and_generate` when `max_tokens` or
`temperature` is also present and to `query_knowledge_base` otherwise, with
the whole event as arguments; and otherwise, when none of `tool_name`,
`name`, `action`, `toolName` is present, the tool is `list_sources`, again
with the whole event as arguments. -/
theorem c1_shape_inference (event : Dict) (v : PyVal)
    (h4 : step4 (step13 event).1 = .ok v) (hf : truthy v = false) :
    (hasKey event "query" = true →
      normalize event = .ok
        (.str (if hasKey event "max_tokens" || hasKey event "temperature" then
                 "retrieve_and_generate" else "query_knowledge_base"),
         .dict event)) ∧
    (hasKey event "query" = false →
      (hasKey event "tool_name" || hasKey event "name" || hasKey event "action"
        || hasKey event "toolName") = false →
      normalize event = .ok (.str "list_sources", .dict event)) := by
  unfold normalize
  rw [h4]
  constructor
  · intro hq
    simp [step5, hf, hq]
  · intro hq hn
    simp [step5, hf, hq, hn]

/-- Witness for C1: a nameless event with `query` and `max_tokens` resolves
to `retrieve_and_generate`, and an event with no recognized key at all
resolves to `list_sources`; both take the entire event as arguments. -/
theorem c1_shape_inference_witness :
    normalize [("query", PyVal.str "hi"), ("max_tokens", PyVal.int 5)]
      = .ok (.str "retrieve_and_generate",
             .dict [("query", PyVal.str "hi"), ("max_tokens", PyVal.int 5)]) ∧
    normalize [("session_id", PyVal.str "s")]
      = .ok (.str "list_sources", .dict [("session_id", PyVal.str "s")]) := by
  constructor
  · exact (c1_shape_inference [("query", PyVal.str "hi"), ("max_tokens", PyVal.int 5)]
      (.str "") rfl rfl).1 rfl
  · exact (c1_shape_inference [("session_id", PyVal.str "s")] (.str "") rfl rfl).2 rfl rfl

/-- C2 as stated is false: Python's `split('___')[-1]` splits on
non-overlapping matches scanned left to right, which differs from "the
substring after the last occurrence" when occurrences overlap.  For
`tool_name = "____"` (four underscores) the code resolves the tool name to
`"_"`, while the substring after the last occurrence (index 1) is `""`. -/
theorem c2_delimiter_counterexample :
    normalize [("tool_name", PyVal.str "____")] = .ok (.str "_", .dict []) ∧
    substringAfterLastOccurrence "____" = "" ∧ ("_" : String) ≠ "" := by
  refine ⟨rfl, by decide, by decide⟩

/-- C2 amended: for every invocation event whose name (as resolved by steps
1-3) is a non-empty string containing the delimiter `___`, the
delimiter-stripping step keeps exactly the last element of the
non-overlapping left-to-right split of the name on `___` (shape inference
still applies afterwards if that element is empty); in particular
`KBTarget___query_knowledge_base` dispatches as `query_knowledge_base`. -/
theorem c2_delimiter_amended (event : Dict) (s : String)
    (hn : (step13 event).1 = .str s) (hne : s ≠ "")
    (hsub : strHasSub "___".toList s.toList = true) :
    step4 (step13 event).1 = .ok (.str (String.mk (pySplitLast3U s.toList))) ∧
    normalize event
      = .ok (step5 event (.str (String.mk (pySplitLast3U s.toList))) (step13 event).2) := by
  have hsub2 : strHasSub ['_', '_', '_'] s.data = true := hsub
  have h4 : step4 (step13 event).1 = .ok (.str (String.mk (pySplitLast3U s.toList))) := by
    rw [hn]
    simp [step4, truthy, hne, pyContainsEx, hsub2, pySplitLast3UAttr]
  refine ⟨h4, ?_⟩
  unfold normalize
  rw [h4]

/-- Witness for the amended C2: the gateway-namespaced name of the spec's
scenario is stripped to `query_knowledge_base`. -/
theorem c2_delimiter_amended_witness :
    step4 (step13 [("name", PyVal.str "KBTarget___query_knowledge_base")]).1
      = .ok (.str "query_knowledge_base") ∧
    normalize [("name", PyVal.str "KBTarget___query_knowledge_base"),
               ("arguments", PyVal.dict [("query", PyVal.str "return policy")])]
      = .ok (.str "query_knowledge_base", .dict [("query", PyVal.str "return policy")]) := by
  constructor
  · exact (c2_delimiter_amended [("name", PyVal.str "KBTarget___query_knowledge_base")]
      "KBTarget___query_knowledge_base" rfl (by decide) (by decide)).1
  · exact (c2_delimiter_amended
      [("name", PyVal.str "KBTarget___query_knowledge_base"),
       ("arguments", PyVal.dict [("query", PyVal.str "return policy")])]
      "KBTarget___query_knowledge_base" rfl (by decide) (by decide)).2

/-- C3 as stated is false: it quantifies over every invocation event, but an
event whose resolved tool name is an unhashable non-string falsifies it.  For
`{"action": []}` the falsy list is kept as the tool name (step 5's `elif`
fails because `action` is a present key), and line 125's `[] in handlers`
raises `TypeError: unhashable type: 'list'`, so the invocation ends in a 500
envelope — no handler is invoked and no 400 client error is returned. -/
theorem c3_dispatch_counterexample :
    normalize [("action", PyVal.list [])] = .ok (.list [], .dict []) ∧
    dispatch (.list []) (.dict []) svcQraise svcRraise (.raised "boom") (.raised "boom")
        testNow
      = .error "unhashable type: 'list'" ∧
    handler [("action", PyVal.list [])] svcQraise svcRraise (.raised "boom")
        (.raised "boom") testNow
      = .ok (error_response "unhashable type: 'list'" testNow 500) := by
  exact ⟨rfl, rfl, rfl⟩

/-- C3 amended: for every invocation event whose normalization resolves a
string tool name, dispatch is the fixed-table lookup; each of the four table
names invokes exactly its handler, and any other name yields the client-error
envelope (status 400, success false) whose message contains the offending
name and every one of the four valid tool names. -/
theorem c3_dispatch_table (event : Dict) (s : String) (inp : PyVal)
    (svcQ : RetrieveRequest → RetrieveOutcome) (svcR : RAGRequest → RAGOutcome)
    (svcL : ListOutcome) (svcK : KBInfoOutcome) (now : PyDateTime)
    (hres : normalize event = .ok (.str s, inp)) :
    handlerSteps event svcQ svcR svcL svcK now
      = dispatch (.str s) inp svcQ svcR svcL svcK now ∧
    (s = "query_knowledge_base" →
      dispatch (.str s) inp svcQ svcR svcL svcK now = query_knowledge_base inp svcQ now) ∧
    (s = "retrieve_and_generate" →
      dispatch (.str s) inp svcQ svcR svcL svcK now = retrieve_and_generate inp svcR now) ∧
    (s = "list_sources" →
      dispatch (.str s) inp svcQ svcR svcL svcK now = list_sources inp svcL now) ∧
    (s = "get_knowledge_base_info" →
      dispatch (.str s) inp svcQ svcR svcL svcK now = get_knowledge_base_info inp svcK now) ∧
    (s ∉ (["query_knowledge_base", "retrieve_and_generate", "list_sources",
           "get_knowledge_base_info"] : List String) →
      dispatch (.str s) inp svcQ svcR svcL svcK now
        = .ok (error_response (unknownToolMsg (.str s)) now) ∧
      (error_response (unknownToolMsg (.str s)) now).statusCode = 400 ∧
      dlook (error_response (unknownToolMsg (.str s)) now).body "success"
        = some (.bool false) ∧
      dlook (error_response (unknownToolMsg (.str s)) now).body "error"
        = some (.str (unknownToolMsg (.str s))) ∧
      List.IsInfix s.toList (unknownToolMsgChars (.str s)) ∧
      ∀ t ∈ (["query_knowledge_base", "retrieve_and_generate", "list_sources",
              "get_knowledge_base_info"] : List String),
        List.IsInfix t.toList (unknownToolMsgChars (.str s))) := by
  refine ⟨?_, ?_, ?_, ?_, ?_, ?_⟩
  · unfold handlerSteps
    rw [hres]
  · intro h
    subst h
    rfl
  · intro h
    subst h
    rfl
  · intro h
    subst h
    rfl
  · intro h
    subst h
    rfl
  · intro hs
    have h1 : ¬ (s = "query_knowledge_base") := fun h => hs (by simp [h])
    have h2 : ¬ (s = "retrieve_and_generate") := fun h => hs (by simp [h])
    have h3 : ¬ (s = "list_sources") := fun h => hs (by simp [h])
    have h4 : ¬ (s = "get_knowledge_base_info") := fun h => hs (by simp [h])
    refine ⟨by simp [dispatch, h1, h2, h3, h4], rfl, rfl, rfl, ?_, ?_⟩
    · exact ⟨"Unknown tool: '".toList,
        "'. Available tools: ".toList ++ availListChars,
        by simp [unknownToolMsgChars, strChars, List.append_assoc]⟩
    · intro t ht
      fin_cases ht
      · exact ⟨"Unknown tool: '".toList ++ s.toList ++ "'. Available tools: ".toList
            ++ "['".toList,
          "', '".toList ++ "retrieve_and_generate".toList ++ "', '".toList
            ++ "list_sources".toList ++ "', '".toList
            ++ "get_knowledge_base_info".toList ++ "']".toList,
          by simp [unknownToolMsgChars, availListChars, strChars, List.append_assoc]⟩
      · exact ⟨"Unknown tool: '".toList ++ s.toList ++ "'. Available tools: ".toList
            ++ "['".toList ++ "query_knowledge_base".toList ++ "', '".toList,
          "', '".toList ++ "list_sources".toList ++ "', '".toList
            ++ "get_knowledge_base_info".toList ++ "']".toList,
          by simp [unknownToolMsgChars, availListChars, strChars, List.append_assoc]⟩
      · exact ⟨"Unknown tool: '".toList ++ s.toList ++ "'. Available tools: ".toList
            ++ "['".toList ++ "query_knowledge_base".toList ++ "', '".toList
            ++ "retrieve_and_generate".toList ++ "', '".toList,
          "', '".toList ++ "get_knowledge_base_info".toList ++ "']".toList,
          by simp [unknownToolMsgChars, availListChars, strChars, List.append_assoc]⟩
      · exact ⟨"Unknown tool: '".toList ++ s.toList ++ "'. Available tools: ".toList
            ++ "['".toList ++ "query_knowledge_base".toList ++ "', '".toList
            ++ "retrieve_and_generate".toList ++ "', '".toList
            ++ "list_sources".toList ++ "', '".toList,
          "']".toList,
          by simp [unknownToolMsgChars, availListChars, strChars, List.append_assoc]⟩

/-- Witness for C3: the unknown name `frobnicate` of the spec's example
produces the enumerating client error, and a table name invokes its
handler. -/
theorem c3_dispatch_table_witness :
    dispatch (.str "frobnicate") (.dict []) svcQraise svcRraise (.raised "boom")
        (.raised "boom") testNow
      = .ok (error_response (unknownToolMsg (.str "frobnicate")) testNow) ∧
    dispatch (.str "list_sources") (.dict []) svcQraise svcRraise (.raised "boom")
        (.raised "boom") testNow
      = list_sources (.dict []) (.raised "boom") testNow := by
  constructor
  · exact ((c3_dispatch_table [("tool_name", PyVal.str "frobnicate")] "frobnicate"
      (.dict []) svcQraise svcRraise (.raised "boom") (.raised "boom") testNow
      rfl).2.2.2.2.2 (by decide)).1
  · exact (c3_dispatch_table [("tool_name", PyVal.str "list_sources")] "list_sources"
      (.dict []) svcQraise svcRraise (.raised "boom") (.raised "boom") testNow
      rfl).2.2.2.1 rfl

/-- C4 as stated is false: with `query` missing (blank), a non-numeric
`max_results` makes `query_knowledge_base` raise `TypeError` from the
`min(...)` on line 158, which runs before the query check; the handler
returns no envelope at all, and through the dispatcher the invocation ends in
a 500 envelope, not a client error.  `retrieve_and_generate` fails the same
way on `max_tokens` (line 259). -/
theorem c4_blank_query_counterexample :
    query_knowledge_base (.dict [("max_results", PyVal.str "many")]) svcQraise testNow
      = .error "'<' not supported between instances of 'int' and 'str'" ∧
    retrieve_and_generate (.dict [("max_tokens", PyVal.str "many")]) svcRraise testNow
      = .error "'<' not supported between instances of 'int' and 'str'" ∧
    handler [("tool_name", PyVal.str "query_knowledge_base"),
             ("tool_input", PyVal.dict [("max_results", PyVal.str "many")])]
        svcQraise svcRraise (.raised "boom") (.raised "boom") testNow
      = .ok (error_response "'<' not supported between instances of 'int' and 'str'"
              testNow 500) := by
  exact ⟨rfl, rfl, rfl⟩

/-- C4 amended: for every argument mapping whose `query` value is missing,
empty, or whitespace-only, and whose `max_results` (for
`query_knowledge_base`) resp. `max_tokens` (for `retrieve_and_generate`)
value, when present, is an integer or boolean, both handlers return the
client-error envelope (status 400, success false, no `data` key). -/
theorem c4_blank_query_amended (kvs : Dict) (svcQ : RetrieveRequest → RetrieveOutcome)
    (svcR : RAGRequest → RAGOutcome) (now : PyDateTime)
    (hq : dlook kvs "query" = Option.none ∨
          ∃ s, dlook kvs "query" = some (.str s) ∧ pyStrip s = "") :
    ((dlook kvs "max_results" = Option.none ∨
        (∃ n, dlook kvs "max_results" = some (.int n)) ∨
        (∃ b, dlook kvs "max_results" = some (.bool b))) →
      query_knowledge_base (.dict kvs) svcQ now
        = .ok (error_response "The 'query' parameter is required and cannot be empty" now)) ∧
    ((dlook kvs "max_tokens" = Option.none ∨
        (∃ n, dlook kvs "max_tokens" = some (.int n)) ∨
        (∃ b, dlook kvs "max_tokens" = some (.bool b))) →
      retrieve_and_generate (.dict kvs) svcR now
        = .ok (error_response "The 'query' parameter is required and cannot be empty" now)) ∧
    (error_response "The 'query' parameter is required and cannot be empty" now).statusCode
      = 400 ∧
    dlook (error_response "The 'query' parameter is required and cannot be empty" now).body
        "success" = some (.bool false) ∧
    dlook (error_response "The 'query' parameter is required and cannot be empty" now).body
        "data" = Option.none := by
  have hqs : pyGetStrip (.dict kvs) "query" = .ok "" := by
    rcases hq with h | ⟨s, hs, hstrip⟩
    · simp [pyGetStrip, pyDictGet, dGetD, h, pyStripAttr]
      rfl
    · simp [pyGetStrip, pyDictGet, dGetD, hs, pyStripAttr, hstrip]
  refine ⟨?_, ?_, rfl, rfl, rfl⟩
  · intro hm
    have hmr : ∃ mr, effectiveMaxResults (.dict kvs) = .ok mr := by
      rcases hm with h | ⟨n, hn⟩ | ⟨b, hb⟩
      · exact ⟨.int (min 5 25), by simp [effectiveMaxResults, pyDictGet, dGetD, h,
          pyMinCap, DEFAULT_MAX_RESULTS]⟩
      · exact ⟨.int (min n 25), by simp [effectiveMaxResults, pyDictGet, dGetD, hn,
          pyMinCap]⟩
      · exact ⟨.bool b, by cases b <;> simp [effectiveMaxResults, pyDictGet, dGetD, hb,
          pyMinCap]⟩
    obtain ⟨mr, hmr⟩ := hmr
    simp [query_knowledge_base, hqs, hmr, pyDictGet]
  · intro hm
    have hmt : ∃ mt, effectiveMaxTokens (.dict kvs) = .ok mt := by
      rcases hm with h | ⟨n, hn⟩ | ⟨b, hb⟩
      · exact ⟨.int (min 2048 4096), by simp [effectiveMaxTokens, pyDictGet, dGetD, h,
          pyMinCap, DEFAULT_MAX_TOKENS]⟩
      · exact ⟨.int (min n 4096), by simp [effectiveMaxTokens, pyDictGet, dGetD, hn,
          pyMinCap]⟩
      · exact ⟨.bool b, by cases b <;> simp [effectiveMaxTokens, pyDictGet, dGetD, hb,
          pyMinCap]⟩
    obtain ⟨mt, hmt⟩ := hmt
    simp [retrieve_and_generate, hqs, hmt, pyDictGet, pyDictGetOpt]

/-- Witness for the amended C4: the whitespace-only query `"   "` yields the
client-error envelope from both knowledge-base tools. -/
theorem c4_blank_query_amended_witness :
    query_knowledge_base (.dict [("query", PyVal.str "   ")]) svcQraise testNow
      = .ok (error_response "The 'query' parameter is required and cannot be empty"
              testNow) ∧
    retrieve_and_generate (.dict [("query", PyVal.str "   ")]) svcRraise testNow
      = .ok (error_response "The 'query' parameter is required and cannot be empty"
              testNow) := by
  refine ⟨?_, ?_⟩
  · exact (c4_blank_query_amended [("query", PyVal.str "   ")] svcQraise svcRraise testNow
      (Or.inr ⟨"   ", rfl, rfl⟩)).1 (Or.inl rfl)
  · exact (c4_blank_query_amended [("query", PyVal.str "   ")] svcQraise svcRraise testNow
      (Or.inr ⟨"   ", rfl, rfl⟩)).2.1 (Or.inl rfl)

/-- C5: `query_knowledge_base` computes its effective result bound as 5 when
`max_results` is absent and as `min(max_results, 25)` for an integer value
(999 becomes 25), `retrieve_and_generate` computes its token bound as 2048
when `max_tokens` is absent and as `min(max_tokens, 4096)` (100000 becomes
4096); and with a non-blank query each handler issues its external call with
exactly that bound in the request. -/
theorem c5_default_and_clamp (kvs : Dict) (q : String) (n m : Int)
    (svcQ : RetrieveRequest → RetrieveOutcome) (svcR : RAGRequest → RAGOutcome)
    (now : PyDateTime) :
    (dlook kvs "max_results" = some (.int n) →
      effectiveMaxResults (.dict kvs) = .ok (.int (min n 25))) ∧
    (dlook kvs "max_results" = Option.none →
      effectiveMaxResults (.dict kvs) = .ok (.int 5)) ∧
    (dlook kvs "max_tokens" = some (.int m) →
      effectiveMaxTokens (.dict kvs) = .ok (.int (min m 4096))) ∧
    (dlook kvs "max_tokens" = Option.none →
      effectiveMaxTokens (.dict kvs) = .ok (.int 2048)) ∧
    (∀ mr, pyGetStrip (.dict kvs) "query" = .ok q → q ≠ "" →
      effectiveMaxResults (.dict kvs) = .ok mr →
      query_knowledge_base (.dict kvs) svcQ now
        = .ok (qkbHandleOutcome q (dGetD kvs "filter" .none)
            (svcQ (qkbRequest q mr (dGetD kvs "filter" .none))) now)) ∧
    (∀ mt, pyGetStrip (.dict kvs) "query" = .ok q → q ≠ "" →
      effectiveMaxTokens (.dict kvs) = .ok mt →
      retrieve_and_generate (.dict kvs) svcR now
        = .ok (ragHandleOutcome q (dGetD kvs "model_arn" (.str MODEL_ARN))
            (svcR { text := q, knowledgeBaseId := KNOWLEDGE_BASE_ID,
                    modelArn := dGetD kvs "model_arn" (.str MODEL_ARN),
                    maxTokens := mt, temperature := dlook kvs "temperature" }) now)) := by
  refine ⟨?_, ?_, ?_, ?_, ?_, ?_⟩
  · intro h
    simp [effectiveMaxResults, pyDictGet, dGetD, h, pyMinCap]
  · intro h
    simp [effectiveMaxResults, pyDictGet, dGetD, h, pyMinCap, DEFAULT_MAX_RESULTS]
  · intro h
    simp [effectiveMaxTokens, pyDictGet, dGetD, h, pyMinCap]
  · intro h
    simp [effectiveMaxTokens, pyDictGet, dGetD, h, pyMinCap, DEFAULT_MAX_TOKENS]
  · intro mr hqs hne hmr
    simp [query_knowledge_base, hqs, hmr, pyDictGet, hne]
  · intro mt hqs hne hmt
    simp [retrieve_and_generate, hqs, hmt, pyDictGet, pyDictGetOpt, hne]

/-- Witness for C5: 999 results clamp to 25, absence defaults to 5; 100000
tokens clamp to 4096, absence defaults to 2048. -/
theorem c5_default_and_clamp_witness :
    effectiveMaxResults (.dict [("max_results", PyVal.int 999)]) = .ok (.int 25) ∧
    effectiveMaxResults (.dict []) = .ok (.int 5) ∧
    effectiveMaxTokens (.dict [("max_tokens", PyVal.int 100000)]) = .ok (.int 4096) ∧
    effectiveMaxTokens (.dict []) = .ok (.int 2048) := by
  refine ⟨?_, ?_, ?_, ?_⟩
  · exact (c5_default_and_clamp [("max_results", PyVal.int 999)] "" 999 0
      svcQraise svcRraise testNow).1 rfl
  · exact (c5_default_and_clamp [] "" 0 0 svcQraise svcRraise testNow).2.1 rfl
  · exact (c5_default_and_clamp [("max_tokens", PyVal.int 100000)] "" 0 100000
      svcQraise svcRraise testNow).2.2.1 rfl
  · exact (c5_default_and_clamp [] "" 0 0 svcQraise svcRraise testNow).2.2.2.1 rfl

/-- C6: for every JSON-serializable data mapping `d`, message `m` and status
`c`, the envelope builders round-trip: `success_response d` is statusCode 200
with decoded body `{success: true, data: d, timestamp: <ISO-8601 UTC stamp
with trailing Z>}`, `error_response m` with status `c` is statusCode `c`
(default 400) with decoded body `{success: false, error: m, timestamp: ...}`,
and in each envelope exactly one of the `data`/`error` keys is present,
matching the `success` flag. -/
theorem c6_envelope_roundtrip (d : PyVal) (m : String) (c : Int) (now : PyDateTime)
    (hd : jsonSafe d = true) :
    success_response d now = .ok
      { statusCode := 200
        body := [("success", .bool true), ("data", d),
                 ("timestamp", .str (pyIsoformat now ++ "Z"))]
        headers := stdHeaders } ∧
    error_response m now c =
      { statusCode := c
        body := [("success", .bool false), ("error", .str m),
                 ("timestamp", .str (pyIsoformat now ++ "Z"))]
        headers := stdHeaders } ∧
    error_response m now = error_response m now 400 ∧
    (∀ r, success_response d now = .ok r →
      dlook r.body "success" = some (.bool true) ∧ dlook r.body "data" = some d ∧
      dlook r.body "error" = Option.none) ∧
    (dlook (error_response m now c).body "success" = some (.bool false) ∧
     dlook (error_response m now c).body "error" = some (.str m) ∧
     dlook (error_response m now c).body "data" = Option.none) := by
  have hs : success_response d now = .ok
      { statusCode := 200
        body := [("success", .bool true), ("data", d),
                 ("timestamp", .str (pyIsoformat now ++ "Z"))]
        headers := stdHeaders } := by
    simp [success_response, hd]
  refine ⟨hs, rfl, rfl, ?_, rfl, rfl, rfl⟩
  intro r hr
  rw [hs] at hr
  cases hr
  exact ⟨rfl, rfl, rfl⟩

/-- Witness for C6: the spec's round-trip examples `success({"a": 1})` and
`failure("x", 429)`. -/
theorem c6_envelope_roundtrip_witness :
    success_response (.dict [("a", PyVal.int 1)]) testNow = .ok
      { statusCode := 200
        body := [("success", .bool true), ("data", .dict [("a", PyVal.int 1)]),
                 ("timestamp", .str "2024-01-02T03:04:05Z")]
        headers := stdHeaders } ∧
    error_response "x" testNow 429 =
      { statusCode := 429
        body := [("success", .bool false), ("error", .str "x"),
                 ("timestamp", .str "2024-01-02T03:04:05Z")]
        headers := stdHeaders } := by
  constructor
  · exact (c6_envelope_roundtrip (.dict [("a", PyVal.int 1)]) "x" 429 testNow rfl).1
  · exact (c6_envelope_roundtrip (.dict [("a", PyVal.int 1)]) "x" 429 testNow rfl).2.1

/-- C7 as stated is false: `extract_location` is not total on location
mappings.  When a recognized tag is present but its nested value is not a
mapping, the `.get` on it raises `AttributeError` (line 424), so
`{s3Location: 5}` raises instead of returning a string. -/
theorem c7_extract_location_counterexample :
    extract_location (.dict [("s3Location", PyVal.int 5)])
      = .error "'int' object has no attribute 'get'" := rfl

/-- Shared case analysis of `extract_location` on dict inputs, by the code's
tag priority. -/
theorem extract_location_cases (kvs m : Dict) :
    (dlook kvs "s3Location" = some (.dict m) →
      extract_location (.dict kvs) = .ok (dGetD m "uri" (.str ""))) ∧
    (hasKey kvs "s3Location" = false → dlook kvs "webLocation" = some (.dict m) →
      extract_location (.dict kvs) = .ok (dGetD m "url" (.str ""))) ∧
    (hasKey kvs "s3Location" = false → hasKey kvs "webLocation" = false →
      dlook kvs "confluenceLocation" = some (.dict m) →
      extract_location (.dict kvs) = .ok (dGetD m "url" (.str ""))) ∧
    (hasKey kvs "s3Location" = false → hasKey kvs "webLocation" = false →
      hasKey kvs "confluenceLocation" = false →
      dlook kvs "salesforceLocation" = some (.dict m) →
      extract_location (.dict kvs) = .ok (dGetD m "url" (.str ""))) ∧
    (hasKey kvs "s3Location" = false → hasKey kvs "webLocation" = false →
      hasKey kvs "confluenceLocation" = false → hasKey kvs "salesforceLocation" = false →
      dlook kvs "sharePointLocation" = some (.dict m) →
      extract_location (.dict kvs) = .ok (dGetD m "url" (.str ""))) ∧
    (hasKey kvs "s3Location" = false → hasKey kvs "webLocation" = false →
      hasKey kvs "confluenceLocation" = false → hasKey kvs "salesforceLocation" = false →
      hasKey kvs "sharePointLocation" = false →
      extract_location (.dict kvs) = .ok (.str (pyStr (.dict kvs))) ∧
      pyStr (.dict kvs) ≠ "") := by
  refine ⟨?_, ?_, ?_, ?_, ?_, ?_⟩
  · intro h1
    have hk : hasKey kvs "s3Location" = true := by simp [hasKey, h1]
    simp [extract_location, pyContainsEx, hk, h1, pySubscript, pyDictGet]
  · intro h1 h2
    have hk : hasKey kvs "webLocation" = true := by simp [hasKey, h2]
    simp [extract_location, pyContainsEx, h1, hk, h2, pySubscript, pyDictGet]
  · intro h1 h2 h3
    have hk : hasKey kvs "confluenceLocation" = true := by simp [hasKey, h3]
    simp [extract_location, pyContainsEx, h1, h2, hk, h3, pySubscript, pyDictGet]
  · intro h1 h2 h3 h4
    have hk : hasKey kvs "salesforceLocation" = true := by simp [hasKey, h4]
    simp [extract_location, pyContainsEx, h1, h2, h3, hk, h4, pySubscript, pyDictGet]
  · intro h1 h2 h3 h4 h5
    have hk : hasKey kvs "sharePointLocation" = true := by simp [hasKey, h5]
    simp [extract_location, pyContainsEx, h1, h2, h3, h4, hk, h5, pySubscript, pyDictGet]
  · intro h1 h2 h3 h4 h5
    refine ⟨?_, pyStr_dict_ne_empty kvs⟩
    simp [extract_location, pyContainsEx, h1, h2, h3, h4, h5]

/-- C7 amended: `extract_location` is deterministic and stateless; for every
location mapping whose relevant provider tag (the first present among
`s3Location`, `webLocation`, `confluenceLocation`, `salesforceLocation`,
`sharePointLocation`) holds a nested mapping, it returns without raising the
nested `uri` (object storage) or `url` (web, confluence, salesforce,
sharePoint) value, the empty string standing in when that field is absent —
in particular `{s3Location: {uri: "s3://b/k"}}` yields `"s3://b/k"` — and for
a mapping carrying none of the five tags it returns the non-empty string
rendering of the whole mapping. -/
theorem c7_extract_location_amended (kvs m : Dict) :
    (dlook kvs "s3Location" = some (.dict m) →
      extract_location (.dict kvs) = .ok (dGetD m "uri" (.str ""))) ∧
    (hasKey kvs "s3Location" = false → dlook kvs "webLocation" = some (.dict m) →
      extract_location (.dict kvs) = .ok (dGetD m "url" (.str ""))) ∧
    (hasKey kvs "s3Location" = false → hasKey kvs "webLocation" = false →
      dlook kvs "confluenceLocation" = some (.dict m) →
      extract_location (.dict kvs) = .ok (dGetD m "url" (.str ""))) ∧
    (hasKey kvs "s3Location" = false → hasKey kvs "webLocation" = false →
      hasKey kvs "confluenceLocation" = false →
      dlook kvs "salesforceLocation" = some (.dict m) →
      extract_location (.dict kvs) = .ok (dGetD m "url" (.str ""))) ∧
    (hasKey kvs "s3Location" = false → hasKey kvs "webLocation" = false →
      hasKey kvs "confluenceLocation" = false → hasKey kvs "salesforceLocation" = false →
      dlook kvs "sharePointLocation" = some (.dict m) →
      extract_location (.dict kvs) = .ok (dGetD m "url" (.str ""))) ∧
    (hasKey kvs "s3Location" = false → hasKey kvs "webLocation" = false →
      hasKey kvs "confluenceLocation" = false → hasKey kvs "salesforceLocation" = false →
      hasKey kvs "sharePointLocation" = false →
      extract_location (.dict kvs) = .ok (.str (pyStr (.dict kvs))) ∧
      pyStr (.dict kvs) ≠ "") := by
  exact extract_location_cases kvs m

/-- Witness for the amended C7: the object-storage example yields its URI,
and an untagged mapping yields its rendering. -/
theorem c7_extract_location_amended_witness :
    extract_location (.dict [("s3Location", .dict [("uri", PyVal.str "s3://b/k")])])
      = .ok (.str "s3://b/k") ∧
    extract_location (.dict [("type", PyVal.str "CUSTOM")])
      = .ok (.str (pyStr (.dict [("type", PyVal.str "CUSTOM")]))) := by
  constructor
  · exact (c7_extract_location_amended [("s3Location", .dict [("uri", PyVal.str "s3://b/k")])]
      [("uri", PyVal.str "s3://b/k")]).1 rfl
  · exact ((c7_extract_location_amended [("type", PyVal.str "CUSTOM")] []).2.2.2.2.2
      rfl rfl rfl rfl rfl).1

/-- C8: when the external retrieve-and-generate call raises the throttling
fault, `retrieve_and_generate` returns the error envelope with status 429 and
the fixed busy message, instead of propagating the fault or using the default
400. -/
theorem c8_throttling_429 (kvs : Dict) (svc : RAGRequest → RAGOutcome) (now : PyDateTime)
    (q tm : String) (mt : PyVal)
    (hq : pyGetStrip (.dict kvs) "query" = .ok q) (hne : q ≠ "")
    (hmt : effectiveMaxTokens (.dict kvs) = .ok mt)
    (hsvc : svc { text := q, knowledgeBaseId := KNOWLEDGE_BASE_ID,
                  modelArn := dGetD kvs "model_arn" (.str MODEL_ARN), maxTokens := mt,
                  temperature := dlook kvs "temperature" } = .throttlingExc tm) :
    retrieve_and_generate (.dict kvs) svc now
      = .ok (error_response "Service is busy, please try again in a moment" now 429) := by
  simp [retrieve_and_generate, hq, hmt, pyDictGet, pyDictGetOpt, hne, hsvc,
    ragHandleOutcome]

/-- Witness for C8: a throttled generate call yields the 429 busy envelope. -/
theorem c8_throttling_429_witness :
    retrieve_and_generate (.dict [("query", PyVal.str "q")])
        (fun _ => .throttlingExc "Rate exceeded") testNow
      = .ok (error_response "Service is busy, please try again in a moment" testNow 429) := by
  exact c8_throttling_429 [("query", PyVal.str "q")] (fun _ => .throttlingExc "Rate exceeded")
    testNow "q" "Rate exceeded" (.int 2048) rfl (by decide) rfl rfl

/-- C9: for every JSON-serializable invocation event, the Lambda handler
returns a single response envelope (it never propagates an exception), and
any exception raised during normalization or dispatch — outside the tool
handlers' own `try` blocks — is caught once at the dispatcher boundary and
returned as an error envelope with status 500 whose message is the exception
text. -/
theorem c9_top_level_catch (event : Dict) (svcQ : RetrieveRequest → RetrieveOutcome)
    (svcR : RAGRequest → RAGOutcome) (svcL : ListOutcome) (svcK : KBInfoOutcome)
    (now : PyDateTime) (e : String) (hsafe : jsonSafe (.dict event) = true) :
    (handlerSteps event svcQ svcR svcL svcK now = .error e →
      handler event svcQ svcR svcL svcK now = .ok (error_response e now 500)) ∧
    (∃ r, handler event svcQ svcR svcL svcK now = .ok r) := by
  constructor
  · intro hsteps
    simp [handler, hsafe, hsteps]
  · refine ⟨?_, ?_⟩
    · exact (match handlerSteps event svcQ svcR svcL svcK now with
             | .ok r => r
             | .error e => error_response e now 500)
    · simp [handler, hsafe]

/-- Witness for C9: an integer `tool_name` makes line 94's `'___' in
tool_name` raise `TypeError`; the handler catches it and returns the 500
envelope carrying the exception text. -/
theorem c9_top_level_catch_witness :
    handler [("tool_name", PyVal.int 123)] svcQraise svcRraise (.raised "boom")
        (.raised "boom") testNow
      = .ok (error_response "argument of type 'int' is not iterable" testNow 500) := by
  exact (c9_top_level_catch [("tool_name", PyVal.int 123)] svcQraise svcRraise
    (.raised "boom") (.raised "boom") testNow
    "argument of type 'int' is not iterable" rfl).1 rfl

/-- C10: for every location mapping carrying one of the five recognized tags
(in the code's priority order) whose nested mapping lacks the corresponding
`uri`/`url` key, `extract_location` returns the empty string — never the
(always non-empty) string rendering of the whole mapping, which only the
no-recognized-tag fallback produces. -/
theorem c10_missing_uri_empty (kvs m : Dict) :
    (dlook kvs "s3Location" = some (.dict m) → dlook m "uri" = Option.none →
      extract_location (.dict kvs) = .ok (.str "")) ∧
    (hasKey kvs "s3Location" = false → dlook kvs "webLocation" = some (.dict m) →
      dlook m "url" = Option.none → extract_location (.dict kvs) = .ok (.str "")) ∧
    (hasKey kvs "s3Location" = false → hasKey kvs "webLocation" = false →
      dlook kvs "confluenceLocation" = some (.dict m) → dlook m "url" = Option.none →
      extract_location (.dict kvs) = .ok (.str "")) ∧
    (hasKey kvs "s3Location" = false → hasKey kvs "webLocation" = false →
      hasKey kvs "confluenceLocation" = false →
      dlook kvs "salesforceLocation" = some (.dict m) → dlook m "url" = Option.none →
      extract_location (.dict kvs) = .ok (.str "")) ∧
    (hasKey kvs "s3Location" = false → hasKey kvs "webLocation" = false →
      hasKey kvs "confluenceLocation" = false → hasKey kvs "salesforceLocation" = false →
      dlook kvs "sharePointLocation" = some (.dict m) → dlook m "url" = Option.none →
      extract_location (.dict kvs) = .ok (.str "")) ∧
    pyStr (.dict kvs) ≠ "" := by
  refine ⟨?_, ?_, ?_, ?_, ?_, pyStr_dict_ne_empty kvs⟩
  · intro h1 hu
    rw [(extract_location_cases kvs m).1 h1]
    simp [dGetD, hu]
  · intro h1 h2 hu
    rw [(extract_location_cases kvs m).2.1 h1 h2]
    simp [dGetD, hu]
  · intro h1 h2 h3 hu
    rw [(extract_location_cases kvs m).2.2.1 h1 h2 h3]
    simp [dGetD, hu]
  · intro h1 h2 h3 h4 hu
    rw [(extract_location_cases kvs m).2.2.2.1 h1 h2 h3 h4]
    simp [dGetD, hu]
  · intro h1 h2 h3 h4 h5 hu
    rw [(extract_location_cases kvs m).2.2.2.2.1 h1 h2 h3 h4 h5]
    simp [dGetD, hu]

/-- Witness for C10: an s3-tagged location whose nested mapping lacks `uri`
yields the empty string. -/
theorem c10_missing_uri_empty_witness :
    extract_location (.dict [("s3Location", .dict [("bucket", PyVal.str "b")])])
      = .ok (.str "") := by
  exact (c10_missing_uri_empty [("s3Location", .dict [("bucket", PyVal.str "b")])]
    [("bucket", PyVal.str "b")]).1 rfl rfl

end KBProxy
